import Mathlib

/-!
Shallow embedding of the MultiSig-vault-Solana treasury program.

Pubkeys are modelled as natural numbers.  u64 / u128 arithmetic is modelled
on Nat with explicit wrap-around (release-mode Rust semantics), i64 on Int
with explicit two-complement wrap.  Solana account plumbing that is external
to the vault state machine (signature verification, account-owner checks,
PDA derivation, CPI results) is passed in as Boolean parameters; a failed
CPI is a distinguished error.  A Rust slice-index panic and a division by
zero are modelled as distinguished error values, since they abort the
instruction without committing state.
-/

def U64 : Nat := 18446744073709551616

def U128 : Nat := 340282366920938463463374607431768211456

/-- Wrapping u64 addition. -/
def wadd (a b : Nat) : Nat := (a + b) % U64

/-- Wrapping u64 subtraction (two-complement wrap for a b < 2 ^ 64). -/
def wsub (a b : Nat) : Nat := (U64 + a - b) % U64

/-- Wrapping u64 multiplication. -/
def wmul (a b : Nat) : Nat := (a * b) % U64

/-- Wrap an integer into the i64 range (two-complement). -/
def wrapI64 (i : Int) : Int := (i + 9223372036854775808) % 18446744073709551616 - 9223372036854775808

/-- Rust cast u64 -> i64 (reinterpret the bits). -/
def u64ToI64 (n : Nat) : Int := wrapI64 (n : Int)

/-- Rust cast i64 -> u64 (reinterpret the bits). -/
def i64ToU64 (i : Int) : Nat := (i % (18446744073709551616 : Int)).toNat

/-- Replace the first element satisfying p by f applied to it (Rust
iter_mut().find / position followed by an in-place update). -/
def updateFirst {α : Type} : List α → (α → Bool) → (α → α) → List α
  | [], _, _ => []
  | x :: xs, p, f => if p x then f x :: xs else x :: updateFirst xs p f

/-- Error codes surfaced by the program: ProgramError variants and the
VaultError variants used by the instructions under study, plus the two
abnormal-termination outcomes (CPI failure, slice-index panic, division
by zero). -/
inductive VErr where
  | MissingRequiredSignature
  | IncorrectProgramId
  | InvalidAccountOwner
  | InvalidAccountData
  | InsufficientFunds
  | UnauthorizedAccess
  | InsufficientAuthority
  | MultisigNotInitialized
  | InvalidOwner
  | InvalidThreshold
  | TransactionNotFound
  | TransactionAlreadyExecuted
  | TransactionAlreadySigned
  | NotEnoughSigners
  | InvalidTransactionData
  | externalCallFailed
  | indexOutOfBounds
  | divideByZero
  deriving Repr, DecidableEq

inductive VoteType where
  | For
  | Against
  | Abstain
  deriving Repr, DecidableEq

structure FeeConfig where
  deposit_fee_bps : Nat
  withdrawal_fee_bps : Nat
  fee_recipient : Nat
  deriving Repr, DecidableEq

structure SupportedToken where
  mint : Nat
  bump : Nat
  total_deposited : Nat
  total_withdrawn : Nat
  is_active : Bool
  deriving Repr, DecidableEq

structure TokenBalance where
  mint : Nat
  balance : Nat
  last_updated : Int
  deriving Repr, DecidableEq

structure TimeLock where
  beneficiary : Nat
  amount : Nat
  start_time : Int
  end_time : Int
  cliff_time : Int
  released_amount : Nat
  is_linear : Bool
  deriving Repr, DecidableEq

structure GovernanceConfig where
  voting_token_mint : Nat
  quorum_threshold : Nat
  proposal_threshold : Nat
  voting_period : Int
  timelock_delay : Int
  execution_threshold : Nat
  deriving Repr, DecidableEq

structure GovernanceProposal where
  id : Nat
  proposer : Nat
  title : String
  description : String
  instructions : List (List Nat)
  start_time : Int
  end_time : Int
  for_votes : Nat
  against_votes : Nat
  abstain_votes : Nat
  executed : Bool
  cancelled : Bool
  eta : Int
  deriving Repr, DecidableEq

structure VoteRecord where
  voter : Nat
  proposal_id : Nat
  vote_type : VoteType
  voting_power : Nat
  voted_at : Int
  deriving Repr, DecidableEq

structure MultiSig where
  owners : List Nat
  threshold : Nat
  nonce : Nat
  bump : Nat
  deriving Repr, DecidableEq

structure TransactionAccount where
  pubkey : Nat
  is_signer : Bool
  is_writable : Bool
  deriving Repr, DecidableEq

structure MultiSigTransaction where
  multisig : Nat
  program_id : Nat
  accounts : List TransactionAccount
  data : List Nat
  signers : List Bool
  did_execute : Bool
  proposer : Nat
  created_at : Int
  deriving Repr, DecidableEq

/-- The persisted vault aggregate (the fields the studied instructions
read or write; processors in src/src/processors name the multisig owner
list authorities, same data). -/
structure Vault where
  authority : Nat
  bump : Nat
  emergency_admin : Nat
  paused : Bool
  supported_tokens : List SupportedToken
  token_balances : List TokenBalance
  time_locks : List TimeLock
  fee_config : FeeConfig
  total_value_locked : Nat
  total_fees_collected : Nat
  legacy_mint : Option Nat
  legacy_total_deposited : Nat
  governance_config : Option GovernanceConfig
  governance_proposals : List GovernanceProposal
  next_governance_proposal_id : Nat
  vote_records : List VoteRecord
  multi_sig : Option MultiSig
  multi_sig_transactions : List MultiSigTransaction
  deriving Repr, DecidableEq

/-- State written by process_initialize (processor.rs line 270): a fresh
vault with the given authority and emergency admin, everything else at the
Default values. -/
def initialVault (authority emergency_admin : Nat) (bump : Nat) : Vault :=
  { authority := authority
    bump := bump
    emergency_admin := emergency_admin
    paused := false
    supported_tokens := []
    token_balances := []
    time_locks := []
    fee_config := { deposit_fee_bps := 0, withdrawal_fee_bps := 0, fee_recipient := authority }
    total_value_locked := 0
    total_fees_collected := 0
    legacy_mint := none
    legacy_total_deposited := 0
    governance_config := none
    governance_proposals := []
    next_governance_proposal_id := 0
    vote_records := []
    multi_sig := none
    multi_sig_transactions := [] }

/-- processor.rs line 878: process_initialize_multi_sig.  The Boolean
owner_ok stands for the vault-account ownership check against the program
id. -/
def process_initialize_multi_sig (v : Vault) (initializer : Nat)
    (initializer_is_signer : Bool) (owner_ok : Bool)
    (owners : List Nat) (threshold : Nat) (nonce : Nat) : Except VErr Vault :=
  if !initializer_is_signer then .error .MissingRequiredSignature else
  if !owner_ok then .error .IncorrectProgramId else
  if v.authority ≠ initializer then .error .InsufficientAuthority else
  if threshold = 0 || threshold > owners.length then .error .InvalidThreshold else
  -- sort + dedup + length comparison in the source is exactly a no-duplicates check
  if !owners.Nodup then .error .InvalidAccountData else
  .ok { v with multi_sig := some { owners := owners, threshold := threshold, nonce := nonce, bump := 0 } }

/-- processor.rs line 1294: process_create_multi_sig_transaction. -/
def process_create_multi_sig_transaction (v : Vault) (vault_key : Nat)
    (proposer : Nat) (proposer_is_signer : Bool)
    (target_program_id : Nat) (transaction_accounts : List TransactionAccount)
    (data : List Nat) (now : Int) : Except VErr Vault :=
  if !proposer_is_signer then .error .MissingRequiredSignature else
  match v.multi_sig with
  | none => .error .MultisigNotInitialized
  | some ms =>
    if !(ms.owners.contains proposer) then .error .InvalidOwner else
    let owner_index := ms.owners.indexOf proposer
    let signers := (List.replicate ms.owners.length false).set owner_index true
    if transaction_accounts.isEmpty then .error .InvalidTransactionData else
    let tx : MultiSigTransaction :=
      { multisig := vault_key
        program_id := target_program_id
        accounts := transaction_accounts
        data := data
        signers := signers
        did_execute := false
        proposer := proposer
        created_at := now }
    .ok { v with multi_sig_transactions := v.multi_sig_transactions ++ [tx] }

/-- processor.rs line 1381: process_approve_multi_sig_transaction.  The
source reads transaction.signers[owner_index] with a plain slice index;
when owner_index is outside the stored bitset this is a Rust panic,
modelled as the indexOutOfBounds outcome. -/
def process_approve_multi_sig_transaction (v : Vault) (approver : Nat)
    (approver_is_signer : Bool) (transaction_id : Nat) : Except VErr Vault :=
  if !approver_is_signer then .error .MissingRequiredSignature else
  match v.multi_sig with
  | none => .error .MultisigNotInitialized
  | some ms =>
    match v.multi_sig_transactions[transaction_id]? with
    | none => .error .TransactionNotFound
    | some tx =>
      if tx.did_execute then .error .TransactionAlreadyExecuted else
      if !(ms.owners.contains approver) then .error .InvalidOwner else
      let owner_index := ms.owners.indexOf approver
      match tx.signers[owner_index]? with
      | none => .error .indexOutOfBounds
      | some already_signed =>
        if already_signed then .error .TransactionAlreadySigned else
        let tx' := { tx with signers := tx.signers.set owner_index true }
        .ok { v with multi_sig_transactions := v.multi_sig_transactions.set transaction_id tx' }

/-- Number of set approval bits of a multisig transaction. -/
def approvalCount (tx : MultiSigTransaction) : Nat := tx.signers.countP (fun b => b)

/-- processor.rs line 1462: process_execute_multi_sig_transaction.
pda_signer_ok stands for the find_program_address comparison against the
supplied multisig signer account, invoke_ok for the result of the CPI
(invoke_signed); the executed flag is only set after the CPI succeeds. -/
def process_execute_multi_sig_transaction (v : Vault) (executor : Nat)
    (executor_is_signer : Bool) (transaction_id : Nat)
    (pda_signer_ok : Bool) (invoke_ok : Bool) : Except VErr Vault :=
  if !executor_is_signer then .error .MissingRequiredSignature else
  match v.multi_sig with
  | none => .error .MultisigNotInitialized
  | some ms =>
    match v.multi_sig_transactions[transaction_id]? with
    | none => .error .TransactionNotFound
    | some tx =>
      if tx.did_execute then .error .TransactionAlreadyExecuted else
      if approvalCount tx < ms.threshold then .error .NotEnoughSigners else
      if !pda_signer_ok then .error .InvalidAccountData else
      if !invoke_ok then .error .externalCallFailed else
      let tx' := { tx with did_execute := true }
      .ok { v with multi_sig_transactions := v.multi_sig_transactions.set transaction_id tx' }

/-- processor.rs line 1572: process_set_multi_sig_owners.  Only the signer
flag guards the call; duplicates are rejected (sort + dedup + length check)
and the threshold is clamped down to the new owner count when needed. -/
def process_set_multi_sig_owners (v : Vault) (authority_is_signer : Bool)
    (owners : List Nat) : Except VErr Vault :=
  if !authority_is_signer then .error .MissingRequiredSignature else
  match v.multi_sig with
  | none => .error .MultisigNotInitialized
  | some ms =>
    if !owners.Nodup then .error .InvalidAccountData else
    let threshold' := if owners.length < ms.threshold then owners.length else ms.threshold
    .ok { v with multi_sig := some { ms with owners := owners, threshold := threshold' } }

/-- processor.rs line 1743: calculate_fee, a u128-widened basis-point fee. -/
def calculate_fee (amount : Nat) (fee_bps : Nat) : Nat :=
  if amount = 0 then 0
  else ((amount * fee_bps) % U128 / 10000) % U64

/-- processor.rs line 382: process_deposit (SPL-token deposit with the
basis-point fee).  vault_owner_ok stands for the vault-account ownership
check, token_program_ok for the spl_token id check, ata_ok for the derived
associated-token-address comparison, transfer_ok for the CPI transfer
result; token_mint is the mint read from the user token account. -/
def process_deposit (v : Vault) (user_is_signer : Bool) (vault_owner_ok : Bool)
    (token_program_ok : Bool) (token_mint : Nat) (ata_ok : Bool)
    (transfer_ok : Bool) (amount : Nat) (now : Int) : Except VErr Vault :=
  if !user_is_signer then .error .MissingRequiredSignature else
  if !vault_owner_ok then .error .InvalidAccountOwner else
  if !token_program_ok then .error .InvalidAccountData else
  if v.paused then .error .UnauthorizedAccess else
  if !(v.supported_tokens.any (fun t => t.mint == token_mint && t.is_active)) then
    .error .InvalidAccountData else
  if !ata_ok then .error .InvalidAccountData else
  let deposit_fee := if amount > 0 then ((amount * v.fee_config.deposit_fee_bps) % U128 / 10000) % U64 else 0
  let net_deposit_amount := wsub amount deposit_fee
  if !transfer_ok then .error .externalCallFailed else
  let supported' :=
    updateFirst v.supported_tokens (fun t => t.mint == token_mint)
      (fun t => { t with total_deposited := wadd t.total_deposited net_deposit_amount })
  let v := { v with supported_tokens := supported' }
  let balances' :=
    match v.token_balances.findIdx? (fun b => b.mint == token_mint) with
    | some _ =>
      updateFirst v.token_balances (fun b => b.mint == token_mint)
        (fun b => { b with balance := wadd b.balance net_deposit_amount, last_updated := now })
    | none =>
      v.token_balances ++ [{ mint := token_mint, balance := net_deposit_amount, last_updated := now }]
  let v := { v with token_balances := balances' }
  .ok { v with
        total_value_locked := wadd v.total_value_locked net_deposit_amount
        total_fees_collected := wadd v.total_fees_collected deposit_fee }

/-- processors/governance.rs line 63: process_create_governance_proposal.
The proposer threshold is checked against legacy_total_deposited; eta of
the fresh proposal is initialized to 0. -/
def process_create_governance_proposal (v : Vault) (proposer : Nat)
    (proposer_is_signer : Bool) (title description : String)
    (instructions : List (List Nat)) (now : Int) : Except VErr Vault :=
  if !proposer_is_signer then .error .MissingRequiredSignature else
  match v.governance_config with
  | none => .error .InvalidAccountData
  | some gc =>
    if v.legacy_total_deposited < gc.proposal_threshold then .error .InvalidAccountData else
    let p : GovernanceProposal :=
      { id := v.next_governance_proposal_id
        proposer := proposer
        title := title
        description := description
        instructions := instructions
        start_time := now
        end_time := wrapI64 (now + gc.voting_period)
        for_votes := 0
        against_votes := 0
        abstain_votes := 0
        executed := false
        cancelled := false
        eta := 0 }
    .ok { v with
          governance_proposals := v.governance_proposals ++ [p]
          next_governance_proposal_id := wadd v.next_governance_proposal_id 1 }

/-- processors/governance.rs line 117: process_cast_vote.  The parameter
voter_token_balance models the voter_token_account the instruction
receives; the source never deserializes it and uses the constant 100 as
the voting power. -/
def process_cast_vote (v : Vault) (voter : Nat) (voter_is_signer : Bool)
    (voter_token_balance : Nat) (proposal_id : Nat) (vote_type : VoteType)
    (now : Int) : Except VErr Vault :=
  if !voter_is_signer then .error .MissingRequiredSignature else
  match v.governance_proposals.find? (fun p => p.id == proposal_id) with
  | none => .error .InvalidAccountData
  | some p =>
    if now < p.start_time || now > p.end_time then .error .InvalidAccountData else
    if v.vote_records.any (fun r => r.voter == voter && r.proposal_id == proposal_id) then
      .error .InvalidAccountData else
    let voting_power : Nat := 100
    let applyVote : GovernanceProposal → GovernanceProposal := fun q =>
      match vote_type with
      | .For => { q with for_votes := wadd q.for_votes voting_power }
      | .Against => { q with against_votes := wadd q.against_votes voting_power }
      | .Abstain => { q with abstain_votes := wadd q.abstain_votes voting_power }
    .ok { v with
          governance_proposals :=
            updateFirst v.governance_proposals (fun q => q.id == proposal_id) applyVote
          vote_records := v.vote_records ++
            [{ voter := voter
               proposal_id := proposal_id
               vote_type := vote_type
               voting_power := voting_power
               voted_at := now }] }

/-- processors/governance.rs line 175: process_queue_proposal.  Requires
the voting period to be over and the three tallies to reach the quorum
threshold; sets eta.  The cancelled flag is not consulted. -/
def process_queue_proposal (v : Vault) (authority_is_signer : Bool)
    (proposal_id : Nat) (now : Int) : Except VErr Vault :=
  if !authority_is_signer then .error .MissingRequiredSignature else
  match v.governance_config with
  | none => .error .InvalidAccountData
  | some gc =>
    match v.governance_proposals.find? (fun p => p.id == proposal_id) with
    | none => .error .InvalidAccountData
    | some p =>
      if now ≤ p.end_time then .error .InvalidAccountData else
      let total_votes := wadd (wadd p.for_votes p.against_votes) p.abstain_votes
      if total_votes < gc.quorum_threshold then .error .InvalidAccountData else
      let proposals' :=
        updateFirst v.governance_proposals (fun q => q.id == proposal_id)
          (fun q => { q with eta := wrapI64 (now + gc.timelock_delay) })
      .ok { v with governance_proposals := proposals' }

/-- processors/governance.rs line 222: process_execute_governance_proposal.
Checks only now at or past eta and the for-votes ratio against the
execution threshold; neither the executed nor the cancelled flag nor any
queue state is consulted. -/
def process_execute_governance_proposal (v : Vault) (executor_is_signer : Bool)
    (proposal_id : Nat) (now : Int) : Except VErr Vault :=
  if !executor_is_signer then .error .MissingRequiredSignature else
  match v.governance_config with
  | none => .error .InvalidAccountData
  | some gc =>
    match v.governance_proposals.find? (fun p => p.id == proposal_id) with
    | none => .error .InvalidAccountData
    | some p =>
      if now < p.eta then .error .InvalidAccountData else
      let total_votes := wadd p.for_votes p.against_votes
      let reached := total_votes > 0 && decide (wmul p.for_votes 10000 / total_votes ≥ gc.execution_threshold)
      if !reached then .error .InvalidAccountData else
      let proposals' :=
        updateFirst v.governance_proposals (fun q => q.id == proposal_id)
          (fun q => { q with executed := true })
      .ok { v with governance_proposals := proposals' }

/-- processors/governance.rs line 272: process_cancel_governance_proposal.
Only the signer flag and the proposer-or-emergency-admin test guard the
call; the executed flag is not consulted. -/
def process_cancel_governance_proposal (v : Vault) (canceller : Nat)
    (canceller_is_signer : Bool) (proposal_id : Nat) : Except VErr Vault :=
  if !canceller_is_signer then .error .MissingRequiredSignature else
  match v.governance_proposals.find? (fun p => p.id == proposal_id) with
  | none => .error .InvalidAccountData
  | some p =>
    if p.proposer ≠ canceller ∧ v.emergency_admin ≠ canceller then .error .InvalidAccountData else
    let proposals' :=
      updateFirst v.governance_proposals (fun q => q.id == proposal_id)
        (fun q => { q with cancelled := true })
    .ok { v with governance_proposals := proposals' }

/-- processors/timelock.rs line 16: process_create_time_lock.  Rejects
when the caller is not authorized or the vault is paused; the cliff
defaults to the end time when no cliff duration is given. -/
def process_create_time_lock (v : Vault) (authority : Nat)
    (authority_is_signer : Bool) (beneficiary : Nat) (amount : Nat)
    (duration : Int) (cliff_duration : Option Int) (is_linear : Bool)
    (now : Int) : Except VErr Vault :=
  if !authority_is_signer then .error .MissingRequiredSignature else
  let is_authorized :=
    match v.multi_sig with
    | some ms => ms.owners.contains authority
    | none => v.authority == authority
  if !is_authorized || v.paused then .error .InvalidAccountData else
  let start_time := now
  let end_time := wrapI64 (start_time + duration)
  let cliff_time :=
    match cliff_duration with
    | some d => wrapI64 (start_time + d)
    | none => end_time
  .ok { v with time_locks := v.time_locks ++
        [{ beneficiary := beneficiary
           amount := amount
           start_time := start_time
           end_time := end_time
           cliff_time := cliff_time
           released_amount := 0
           is_linear := is_linear }] }

/-- The releasable-amount computation of process_claim_time_lock
(processors/timelock.rs lines 108 to 117), including the i64 casts of the
linear branch and the division-by-zero abort when end equals start. -/
def releasableAmount (tl : TimeLock) (now : Int) : Except VErr Nat :=
  if now ≥ tl.end_time then .ok (wsub tl.amount tl.released_amount)
  else if tl.is_linear then
    let total_duration := wrapI64 (tl.end_time - tl.start_time)
    let elapsed := wrapI64 (now - tl.start_time)
    if total_duration = 0 then .error .divideByZero
    else
      let vested_amount := i64ToU64 (wrapI64 ((wrapI64 (u64ToI64 tl.amount * elapsed)).tdiv total_duration))
      .ok (wsub vested_amount tl.released_amount)
  else .ok (wsub tl.amount tl.released_amount)

/-- processors/timelock.rs line 71: process_claim_time_lock.  There is no
paused check on this path.  transfer_ok models the CPI token transfer; on
success the released amount is returned alongside the new state, and a
fully released lock is removed. -/
def process_claim_time_lock (v : Vault) (caller : Nat) (caller_is_signer : Bool)
    (time_lock_index : Nat) (now : Int) (transfer_ok : Bool) :
    Except VErr (Vault × Nat) :=
  if !caller_is_signer then .error .MissingRequiredSignature else
  match v.time_locks[time_lock_index]? with
  | none => .error .InvalidAccountData
  | some tl =>
    if tl.beneficiary ≠ caller then .error .InvalidAccountData else
    if now < tl.cliff_time then .error .InvalidAccountData else
    match releasableAmount tl now with
    | .error e => .error e
    | .ok releasable_amount =>
      if releasable_amount = 0 then .error .InvalidAccountData else
      if v.legacy_total_deposited < releasable_amount then .error .InsufficientFunds else
      if !transfer_ok then .error .externalCallFailed else
      let tl' := { tl with released_amount := wadd tl.released_amount releasable_amount }
      let locks := v.time_locks.set time_lock_index tl'
      let locks := if tl'.released_amount ≥ tl.amount then locks.eraseIdx time_lock_index else locks
      .ok ({ v with
             time_locks := locks
             legacy_total_deposited := wsub v.legacy_total_deposited releasable_amount
             total_value_locked := wsub v.total_value_locked releasable_amount },
           releasable_amount)

/-- Unwrap an ok result, falling back to a default state (used only to
name intermediate states of concrete scenarios; every theorem also
asserts the step really returned ok of the named state). -/
def okD {α : Type} (e : Except VErr α) (d : α) : α :=
  match e with
  | .ok v => v
  | .error _ => d

deriving instance DecidableEq for Except

/-! Concrete states used by the scenario theorems.  Every state below is
reached by running the embedded instructions from a fresh vault; each
theorem re-asserts that the corresponding step returned ok of the named
state, so the okD fallback is never silently taken. -/

/-- Fresh vault: authority 10, emergency admin 20. -/
def vB0 : Vault := initialVault 10 20 255

/-- Scenario B step 1: multisig with owners 1, 2, 3 and threshold 2. -/
def vB1 : Vault := okD (process_initialize_multi_sig vB0 10 true true [1, 2, 3] 2 0) vB0

/-- A nonempty account list for multisig transactions. -/
def accA : TransactionAccount := { pubkey := 5, is_signer := false, is_writable := true }

/-- Scenario B step 2: owner 1 proposes transaction 0 (1 approval). -/
def vB2 : Vault := okD (process_create_multi_sig_transaction vB1 77 1 true 99 [accA] [4, 2] 0) vB0

/-- Scenario B step 3: owner 2 approves transaction 0 (2 approvals). -/
def vB3 : Vault := okD (process_approve_multi_sig_transaction vB2 2 true 0) vB0

/-- Scenario B step 4: transaction 0 executed. -/
def vB4 : Vault := okD (process_execute_multi_sig_transaction vB3 9 true 0 true true) vB0

/-- Single-owner multisig for the bitset-length scenario. -/
def vJ1 : Vault := okD (process_initialize_multi_sig vB0 10 true true [1] 1 0) vB0

/-- Transaction 0 proposed while the owner set has one member: its signers
bitset has length 1. -/
def vJ2 : Vault := okD (process_create_multi_sig_transaction vJ1 77 1 true 99 [accA] [] 0) vB0

/-- Owner set replaced by the larger set 1, 2; the stored bitset keeps
length 1. -/
def vJ3 : Vault := okD (process_set_multi_sig_owners vJ2 true [1, 2]) vB0

/-- Governance config: quorum 1, proposal threshold 0, voting period 10,
timelock delay 0, execution threshold 5000 bps. -/
def gcG : GovernanceConfig :=
  { voting_token_mint := 0
    quorum_threshold := 1
    proposal_threshold := 0
    voting_period := 10
    timelock_delay := 0
    execution_threshold := 5000 }

/-- Fresh vault with governance configured. -/
def vG0 : Vault := { initialVault 10 20 255 with governance_config := some gcG }

/-- Proposal 0 created by 3 at time 0 (voting window 0..10, eta 0). -/
def vG1 : Vault := okD (process_create_governance_proposal vG0 3 true "" "" [] 0) vG0

/-- Voter 4 votes For at time 5 (tally 100). -/
def vG2 : Vault := okD (process_cast_vote vG1 4 true 0 0 .For 5) vG0

/-- Proposer 3 cancels proposal 0. -/
def vG3 : Vault := okD (process_cancel_governance_proposal vG2 3 true 0) vG0

/-- Proposal 0 queued at time 11 although it is cancelled. -/
def vG4 : Vault := okD (process_queue_proposal vG3 true 0 11) vG0

/-- Proposal 0 executed at time 11 although it is cancelled. -/
def vG5 : Vault := okD (process_execute_governance_proposal vG4 true 0 11) vG0

/-- Proposal 0 of vG2 executed directly at time 5, with no queue call. -/
def vH3 : Vault := okD (process_execute_governance_proposal vG2 true 0 5) vG0

/-- The executed proposal of vH3 cancelled by its proposer. -/
def vH4 : Vault := okD (process_cancel_governance_proposal vH3 3 true 0) vG0

/-- Vote cast on vG1 by voter 4 whose modelled token balance is 7. -/
def vK2 : Vault := okD (process_cast_vote vG1 4 true 7 0 .For 5) vG0

/-- Supported active token with mint 5. -/
def tokA : SupportedToken :=
  { mint := 5, bump := 0, total_deposited := 0, total_withdrawn := 0, is_active := true }

/-- Scenario A vault: deposit fee 100 bps, token 5 supported. -/
def vA0 : Vault :=
  { initialVault 10 20 255 with
    supported_tokens := [tokA]
    fee_config := { deposit_fee_bps := 100, withdrawal_fee_bps := 0, fee_recipient := 10 } }

/-- Scenario A result: 10000 deposited, balance 9900, fees 100. -/
def vA1 : Vault := okD (process_deposit vA0 true true true 5 true true 10000 0) vA0

/-- Funded vault for the timelock scenarios. -/
def vL0 : Vault :=
  { initialVault 10 20 255 with legacy_total_deposited := 100000, total_value_locked := 100000 }

/-- Scenario C lock: linear, amount 1000, duration 100, no cliff duration,
created at time 0 (so cliff_time = end_time = 100). -/
def vL1 : Vault := okD (process_create_time_lock vL0 10 true 7 1000 100 none true 0) vL0

/-- Scenario C claim at time 100: the full 1000 released, lock removed. -/
def vL2 : Vault := (okD (process_claim_time_lock vL1 7 true 0 100 true) (vL0, 0)).1

/-- Non-linear lock whose cliff (10) is strictly before its end (20). -/
def tlC6 : TimeLock :=
  { beneficiary := 7, amount := 100, start_time := 0, end_time := 20, cliff_time := 10,
    released_amount := 0, is_linear := false }

/-- Funded vault holding tlC6. -/
def vC6 : Vault :=
  { initialVault 10 20 255 with
    legacy_total_deposited := 500, time_locks := [tlC6], total_value_locked := 500 }

/-- State after claiming tlC6 at time 15 (between cliff and end). -/
def vC6' : Vault := (okD (process_claim_time_lock vC6 7 true 0 15 true) (vC6, 0)).1

/-- Matured lock inside a paused vault. -/
def tlC5 : TimeLock :=
  { beneficiary := 7, amount := 100, start_time := 0, end_time := 10, cliff_time := 10,
    released_amount := 0, is_linear := false }

/-- Paused, funded vault holding tlC5. -/
def vC5 : Vault :=
  { initialVault 10 20 255 with
    paused := true, legacy_total_deposited := 500, time_locks := [tlC5],
    total_value_locked := 500 }

/-- State after claiming tlC5 while the vault is paused. -/
def vC5' : Vault := (okD (process_claim_time_lock vC5 7 true 0 10 true) (vC5, 0)).1

/-! Claim theorems. -/

/-- Claim C1: multisig transaction execution succeeds if and only if the
number of set approval bits reaches the configured threshold, and once a
transaction is executed every further approve or execute on the same id
fails with TransactionAlreadyExecuted; moreover, with 3 owners and
threshold 2 (Scenario B), execute after only the single proposer approval
fails with NotEnoughSigners, execute after a second owner approval
succeeds, and both re-execute and a late approve fail with
TransactionAlreadyExecuted. -/
theorem C1_execute_iff_threshold (v : Vault) (ms : MultiSig)
    (hms : v.multi_sig = some ms) (txid : Nat) (tx : MultiSigTransaction)
    (htx : v.multi_sig_transactions[txid]? = some tx)
    (executor approver : Nat) :
    ((tx.did_execute = false →
      ((∃ v', process_execute_multi_sig_transaction v executor true txid true true = .ok v') ↔
        ms.threshold ≤ approvalCount tx)) ∧
    (tx.did_execute = true →
      process_execute_multi_sig_transaction v executor true txid true true =
        .error .TransactionAlreadyExecuted ∧
      process_approve_multi_sig_transaction v approver true txid =
        .error .TransactionAlreadyExecuted)) ∧
    (process_initialize_multi_sig vB0 10 true true [1, 2, 3] 2 0 = .ok vB1 ∧
    process_create_multi_sig_transaction vB1 77 1 true 99 [accA] [4, 2] 0 = .ok vB2 ∧
    vB2.multi_sig_transactions.map approvalCount = [1] ∧
    process_execute_multi_sig_transaction vB2 9 true 0 true true = .error .NotEnoughSigners ∧
    process_approve_multi_sig_transaction vB2 2 true 0 = .ok vB3 ∧
    vB3.multi_sig_transactions.map approvalCount = [2] ∧
    process_execute_multi_sig_transaction vB3 9 true 0 true true = .ok vB4 ∧
    process_execute_multi_sig_transaction vB4 9 true 0 true true =
      .error .TransactionAlreadyExecuted ∧
    process_approve_multi_sig_transaction vB4 3 true 0 =
      .error .TransactionAlreadyExecuted) := by
  refine ⟨⟨?_, ?_⟩, by decide⟩
  · intro hde
    simp only [process_execute_multi_sig_transaction, hms, htx, hde, Bool.not_true,
      Bool.false_eq_true, if_false, ite_false]
    split
    · constructor
      · rintro ⟨v', hv'⟩
        exact absurd hv' (by simp)
      · intro h
        omega
    · constructor
      · intro _
        omega
      · intro _
        exact ⟨_, rfl⟩
  · intro hde
    constructor
    · simp only [process_execute_multi_sig_transaction, hms, htx, hde, Bool.not_true,
        Bool.false_eq_true, if_false, ite_false, if_true]
    · simp only [process_approve_multi_sig_transaction, hms, htx, hde, Bool.not_true,
        Bool.false_eq_true, if_false, ite_false, if_true]

/-- Witness for C1: applied to the two-approval state vB3 of Scenario B,
the iff direction yields a successful execution. -/
theorem C1_execute_iff_threshold_witness :
    ∃ v', process_execute_multi_sig_transaction vB3 9 true 0 true true = .ok v' :=
  (((C1_execute_iff_threshold vB3
      { owners := [1, 2, 3], threshold := 2, nonce := 0, bump := 0 } (by decide) 0
      { multisig := 77, program_id := 99, accounts := [accA], data := [4, 2],
        signers := [true, true, false], did_execute := false, proposer := 1,
        created_at := 0 }
      (by decide) 9 2).1.1 (by decide)).mpr (by decide))

/-- Claim C2: a freshly created governance proposal has eta initialized to
0, and execute_governance_proposal succeeds exactly when the current time
is at least eta and the for-votes ratio reaches the execution threshold —
with no queue, quorum, executed-flag or cancelled-flag condition — so any
proposal passing the ratio check is executable without a prior queue
call. -/
theorem C2_execute_without_queue (v : Vault) (gc : GovernanceConfig)
    (hgc : v.governance_config = some gc) (pid : Nat) (p : GovernanceProposal)
    (hp : v.governance_proposals.find? (fun q => q.id == pid) = some p) (now : Int)
    (w w' : Vault) (proposer : Nat) (title descr : String)
    (instrs : List (List Nat)) (t : Int) :
    (process_create_governance_proposal w proposer true title descr instrs t = .ok w' →
      ∃ q, w'.governance_proposals = w.governance_proposals ++ [q] ∧ q.eta = 0) ∧
    ((∃ u, process_execute_governance_proposal v true pid now = .ok u) ↔
      (p.eta ≤ now ∧ 0 < wadd p.for_votes p.against_votes ∧
        gc.execution_threshold ≤ wmul p.for_votes 10000 / wadd p.for_votes p.against_votes)) := by
  constructor
  · intro h
    unfold process_create_governance_proposal at h
    simp only [Bool.not_true, Bool.false_eq_true, if_false, ite_false] at h
    split at h
    · exact absurd h (by simp)
    · split at h
      · exact absurd h (by simp)
      · rw [Except.ok.injEq] at h
        subst h
        exact ⟨_, rfl, rfl⟩
  · unfold process_execute_governance_proposal
    simp only [hgc, hp, Bool.not_true, Bool.false_eq_true, if_false, ite_false]
    split
    · rename_i hlt
      constructor
      · rintro ⟨u, hu⟩
        exact absurd hu (by simp)
      · intro ⟨h1, _, _⟩
        omega
    · rename_i hge
      split
      · rename_i hnr
        simp only [Bool.not_eq_true', Bool.and_eq_false_iff, decide_eq_false_iff_not] at hnr
        constructor
        · rintro ⟨u, hu⟩
          exact absurd hu (by simp)
        · rintro ⟨h1, h2, h3⟩
          rcases hnr with h | h
          · exact absurd h2 h
          · exact absurd h3 h
      · rename_i hr
        simp only [Bool.not_eq_true, Bool.not_eq_false', Bool.and_eq_true, decide_eq_true_eq] at hr
        constructor
        · intro _
          exact ⟨by omega, hr.1, hr.2⟩
        · intro _
          exact ⟨_, rfl⟩

/-- Witness for C2: the voted, never-queued proposal of vG2 (eta still 0)
executes successfully at time 5. -/
theorem C2_execute_without_queue_witness :
    ∃ u, process_execute_governance_proposal vG2 true 0 5 = .ok u :=
  ((C2_execute_without_queue vG2 gcG (by decide) 0
      { id := 0, proposer := 3, title := "", description := "", instructions := [],
        start_time := 0, end_time := 10, for_votes := 100, against_votes := 0,
        abstain_votes := 0, executed := false, cancelled := false, eta := 0 }
      (by decide) 5 vG0 vG1 3 "" "" [] 0).2.mpr (by decide))

/-- Claim C3 (evaluation at the failing input): the code lets a cancelled
proposal be queued and executed.  Proposal 0 of vG2 is cancelled by its
proposer (vG3, cancelled = true), yet process_queue_proposal succeeds at
time 11 and process_execute_governance_proposal then succeeds as well,
leaving the proposal both cancelled and executed — neither operation
consults the cancelled flag, contradicting the claim that a cancelled
proposal can never be queued or executed. -/
theorem C3_cancelled_proposal_still_queued_and_executed :
    process_cancel_governance_proposal vG2 3 true 0 = .ok vG3 ∧
    vG3.governance_proposals.map (fun p => p.cancelled) = [true] ∧
    process_queue_proposal vG3 true 0 11 = .ok vG4 ∧
    process_execute_governance_proposal vG4 true 0 11 = .ok vG5 ∧
    vG5.governance_proposals.map (fun p => (p.cancelled, p.executed)) = [(true, true)] := by
  decide

/-- Counterexample to C4: the executed proposal of vH3 (executed = true,
cancelled = false) is successfully cancelled by its proposer, and the
proposal is changed (cancelled becomes true) — the claim that cancel fails
on every executed proposal is false. -/
theorem C4_counterexample_cancel_after_execute :
    vH3.governance_proposals.map (fun p => (p.executed, p.cancelled)) = [(true, false)] ∧
    process_cancel_governance_proposal vH3 3 true 0 = .ok vH4 ∧
    vH4.governance_proposals.map (fun p => (p.executed, p.cancelled)) = [(true, true)] ∧
    vH4 ≠ vH3 := by
  decide

/-- Claim C4 as amended: cancel on an existing proposal succeeds exactly
when the signing caller is the original proposer or the emergency admin;
the executed flag is not consulted, so an executed proposal is cancelled
all the same, its cancelled flag being set. -/
theorem C4_cancel_ignores_executed (v : Vault) (canceller pid : Nat)
    (p : GovernanceProposal)
    (hp : v.governance_proposals.find? (fun q => q.id == pid) = some p) :
    ((∃ v', process_cancel_governance_proposal v canceller true pid = .ok v') ↔
      (p.proposer = canceller ∨ v.emergency_admin = canceller)) ∧
    (p.executed = true →
      (p.proposer = canceller ∨ v.emergency_admin = canceller) →
      process_cancel_governance_proposal v canceller true pid =
        .ok { v with governance_proposals :=
                       updateFirst v.governance_proposals (fun q => q.id == pid)
                         (fun q => { q with cancelled := true }) }) := by
  unfold process_cancel_governance_proposal
  simp only [hp, Bool.not_true, Bool.false_eq_true, if_false, ite_false]
  constructor
  · split
    · rename_i hcond
      constructor
      · rintro ⟨v', hv'⟩
        exact absurd hv' (by simp)
      · intro h
        rcases hcond with ⟨h1, h2⟩
        rcases h with h | h
        · exact absurd h h1
        · exact absurd h h2
    · rename_i hcond
      rw [not_and_or] at hcond
      constructor
      · intro _
        rcases hcond with h | h
        · exact Or.inl (not_not.mp h)
        · exact Or.inr (not_not.mp h)
      · intro _
        exact ⟨_, rfl⟩
  · intro hex hok
    split
    · rename_i hcond
      rcases hcond with ⟨h1, h2⟩
      rcases hok with h | h
      · exact absurd h h1
      · exact absurd h h2
    · rfl

/-- Witness for C4: the executed proposal of vH3 is cancellable by its
proposer 3. -/
theorem C4_cancel_ignores_executed_witness :
    ∃ v', process_cancel_governance_proposal vH3 3 true 0 = .ok v' :=
  ((C4_cancel_ignores_executed vH3 3 0
      { id := 0, proposer := 3, title := "", description := "", instructions := [],
        start_time := 0, end_time := 10, for_votes := 100, against_votes := 0,
        abstain_votes := 0, executed := true, cancelled := false, eta := 0 }
      (by decide)).1.mpr (Or.inl rfl))

/-- Claim C5 (evaluation at the failing input): claiming a time lock
succeeds and moves value while the vault is paused.  vC5 is paused, yet
process_claim_time_lock releases 100 units, decreasing the ledger balance
and total_value_locked from 500 to 400; by contrast process_deposit on the
same paused vault is rejected with UnauthorizedAccess — the claim path has
no paused check, contradicting the claim that it must fail while
paused. -/
theorem C5_claim_succeeds_while_paused :
    vC5.paused = true ∧
    process_claim_time_lock vC5 7 true 0 10 true = .ok (vC5', 100) ∧
    vC5'.legacy_total_deposited = 400 ∧
    vC5'.total_value_locked = 400 ∧
    process_deposit vC5 true true true 5 true true 100 0 = .error .UnauthorizedAccess := by
  decide

/-- Counterexample to C6: for the non-linear lock tlC6 with cliff 10
strictly before end 20, a claim by the beneficiary at t = 15 (so
cliff <= t < end) releases the full 100, not 0 — the claim that nothing is
releasable before the end time is false. -/
theorem C6_counterexample_full_release_before_end :
    tlC6.is_linear = false ∧
    tlC6.cliff_time < tlC6.end_time ∧
    releasableAmount tlC6 15 = .ok 100 ∧
    process_claim_time_lock vC6 7 true 0 15 true = .ok (vC6', 100) ∧
    vC6'.legacy_total_deposited = 400 := by
  decide

/-- Claim C6 as amended: for every non-linear (cliff-only) time lock, a
claim by the beneficiary at any time t at or after the cliff — including
cliff <= t < end — releases the full remainder amount - released_amount at
once; the all-at-once unlock happens at the cliff, not at the end time. -/
theorem C6_nonlinear_full_remainder_at_cliff (tl : TimeLock)
    (hnl : tl.is_linear = false) (t : Int) (ht : tl.cliff_time ≤ t)
    (v : Vault) (idx : Nat) (hidx : v.time_locks[idx]? = some tl)
    (hz : wsub tl.amount tl.released_amount ≠ 0)
    (hf : wsub tl.amount tl.released_amount ≤ v.legacy_total_deposited) :
    releasableAmount tl t = .ok (wsub tl.amount tl.released_amount) ∧
    ∃ v', process_claim_time_lock v tl.beneficiary true idx t true =
      .ok (v', wsub tl.amount tl.released_amount) := by
  have hrel : releasableAmount tl t = .ok (wsub tl.amount tl.released_amount) := by
    unfold releasableAmount
    split
    · rfl
    · rw [if_neg (by simp [hnl])]
  refine ⟨hrel, ?_⟩
  unfold process_claim_time_lock
  simp only [hidx, hrel, Bool.not_true, Bool.false_eq_true, if_false, ite_false]
  rw [if_neg (by simp), if_neg (by omega), if_neg (by simpa using hz), if_neg (by omega)]
  exact ⟨_, rfl⟩

/-- Witness for C6: the lock tlC6 claimed at t = 15 inside vC6 releases
its full remainder 100. -/
theorem C6_nonlinear_full_remainder_at_cliff_witness :
    releasableAmount tlC6 15 = .ok (wsub tlC6.amount tlC6.released_amount) :=
  (C6_nonlinear_full_remainder_at_cliff tlC6 (by decide) 15 (by decide) vC6 0
      (by decide) (by decide) (by decide)).1

/-- Counterexample to C7: for the linear lock of Scenario C (amount 1000,
duration 100, no cliff duration, created at time 0), the cliff defaults to
the end time 100, so the claim by the beneficiary at t = 50 is rejected
with InvalidAccountData instead of releasing 500 — the claimed first
release of 500 at the halfway point is false. -/
theorem C7_counterexample_claim_at_t50_fails :
    process_create_time_lock vL0 10 true 7 1000 100 none true 0 = .ok vL1 ∧
    vL1.time_locks = [{ beneficiary := 7, amount := 1000, start_time := 0, end_time := 100,
                        cliff_time := 100, released_amount := 0, is_linear := true }] ∧
    process_claim_time_lock vL1 7 true 0 50 true = .error .InvalidAccountData := by
  decide

/-- Claim C7 as amended: a linear time lock created with amount 1000,
duration 100 and no cliff duration gets cliff_time = end_time = start +
100, so a claim by the beneficiary at t = start + 50 fails (nothing is
claimable before the end), and the claim at t = start + 100 releases the
whole 1000 at once and removes the lock entry. -/
theorem C7_linear_no_cliff_defaults_to_end :
    process_create_time_lock vL0 10 true 7 1000 100 none true 0 = .ok vL1 ∧
    vL1.time_locks = [{ beneficiary := 7, amount := 1000, start_time := 0, end_time := 100,
                        cliff_time := 100, released_amount := 0, is_linear := true }] ∧
    process_claim_time_lock vL1 7 true 0 50 true = .error .InvalidAccountData ∧
    process_claim_time_lock vL1 7 true 0 100 true = .ok (vL2, 1000) ∧
    vL2.time_locks = [] ∧
    vL2.legacy_total_deposited = 99000 := by
  decide

/-- Claim C8: for every amount below 2 ^ 64 and every fee rate bps at most
10000, the fee computed through the u128-widened intermediate equals
floor(amount * bps / 10000) with no 64-bit overflow, and the fee never
exceeds the amount; Scenario A: depositing 10000 units at
deposit_fee_bps = 100 leaves a ledger balance of 9900 and total fees
collected of 100. -/
theorem C8_deposit_fee_floor (amount bps : Nat) (ha : amount < U64) (hb : bps ≤ 10000) :
    calculate_fee amount bps = amount * bps / 10000 ∧
    calculate_fee amount bps ≤ amount ∧
    process_deposit vA0 true true true 5 true true 10000 0 = .ok vA1 ∧
    vA1.token_balances = [{ mint := 5, balance := 9900, last_updated := 0 }] ∧
    vA1.total_fees_collected = 100 := by
  have hab : amount * bps ≤ amount * 10000 := Nat.mul_le_mul_left amount hb
  have key : amount * bps / 10000 ≤ amount := by
    have h1 : amount * bps / 10000 ≤ amount * 10000 / 10000 := Nat.div_le_div_right hab
    have h2 : amount * 10000 / 10000 = amount := Nat.mul_div_cancel amount (by norm_num)
    omega
  have h128 : amount * bps < U128 := by
    unfold U64 at ha
    unfold U128
    omega
  have h64 : amount * bps / 10000 < U64 := lt_of_le_of_lt key ha
  have hfee : calculate_fee amount bps = amount * bps / 10000 := by
    unfold calculate_fee
    split
    · rename_i h
      subst h
      simp
    · rw [Nat.mod_eq_of_lt h128, Nat.mod_eq_of_lt h64]
  refine ⟨hfee, by omega, by decide, by decide, by decide⟩

/-- Witness for C8: the fee on 10000 units at 100 bps is exactly 100. -/
theorem C8_deposit_fee_floor_witness : calculate_fee 10000 100 = 10000 * 100 / 10000 :=
  (C8_deposit_fee_floor 10000 100 (by decide) (by decide)).1

/-- Counterexample to C9: the voter of vK2 votes with a modelled
voting-asset balance of 7, yet the recorded vote weight and the tally
added are the constant 100, not 7 — the claim that the weight is the
balance obtained from the collaborator lookup at call time is false. -/
theorem C9_counterexample_weight_not_balance :
    process_cast_vote vG1 4 true 7 0 .For 5 = .ok vK2 ∧
    vK2.vote_records = [{ voter := 4, proposal_id := 0, vote_type := .For, voting_power := 100,
                          voted_at := 5 }] ∧
    vK2.governance_proposals.map (fun p => p.for_votes) = [100] ∧
    (100 : Nat) ≠ 7 := by
  decide

/-- Claim C9 as amended: when a vote is cast on an open governance
proposal, the weight added to the chosen tally and recorded in the vote
record is the hardcoded constant 100 for every voter; the result of
cast_vote does not depend on the voting-asset balance at all. -/
theorem C9_vote_weight_is_constant_100 (v : Vault) (voter b1 b2 pid : Nat)
    (vt : VoteType) (now : Int) (p : GovernanceProposal)
    (hp : v.governance_proposals.find? (fun q => q.id == pid) = some p)
    (hstart : p.start_time ≤ now) (hend : now ≤ p.end_time)
    (hnv : v.vote_records.any (fun r => r.voter == voter && r.proposal_id == pid) = false) :
    process_cast_vote v voter true b1 pid vt now = process_cast_vote v voter true b2 pid vt now ∧
    ∃ v', process_cast_vote v voter true b1 pid vt now = .ok v' ∧
      v'.vote_records = v.vote_records ++
        [{ voter := voter, proposal_id := pid, vote_type := vt, voting_power := 100,
           voted_at := now }] := by
  refine ⟨rfl, ?_⟩
  unfold process_cast_vote
  simp only [hp, hnv, Bool.not_true, Bool.false_eq_true, if_false, ite_false]
  rw [if_neg (by simp only [Bool.or_eq_true, decide_eq_true_eq, not_or, not_lt]; omega)]
  exact ⟨_, rfl, rfl⟩

/-- Witness for C9: voting on vG1 with modelled balance 7 gives the same
result as voting with modelled balance 0. -/
theorem C9_vote_weight_is_constant_100_witness :
    process_cast_vote vG1 4 true 7 0 .For 5 = process_cast_vote vG1 4 true 0 0 .For 5 :=
  (C9_vote_weight_is_constant_100 vG1 4 7 0 0 .For 5
      { id := 0, proposer := 3, title := "", description := "", instructions := [],
        start_time := 0, end_time := 10, for_votes := 0, against_votes := 0,
        abstain_votes := 0, executed := false, cancelled := false, eta := 0 }
      (by decide) (by decide) (by decide) (by decide)).1

/-- Counterexample to C10: a reachable state in which approve indexes past
the stored signers bitset.  From a fresh vault, a single-owner multisig is
initialized, transaction 0 is proposed (bitset length 1), and the owner
set is then replaced by the larger set 1, 2; the approval by new owner 2
computes owner index 1 against a bitset of length 1 — an out-of-bounds
slice index (a Rust panic) — so the claim that the approver position is
always a valid index into the bitset is false. -/
theorem C10_counterexample_index_past_bitset :
    process_initialize_multi_sig vB0 10 true true [1] 1 0 = .ok vJ1 ∧
    process_create_multi_sig_transaction vJ1 77 1 true 99 [accA] [] 0 = .ok vJ2 ∧
    process_set_multi_sig_owners vJ2 true [1, 2] = .ok vJ3 ∧
    vJ3.multi_sig_transactions.map (fun tx => tx.signers.length) = [1] ∧
    vJ3.multi_sig.map (fun ms => ms.owners.length) = some 2 ∧
    process_approve_multi_sig_transaction vJ3 2 true 0 = .error .indexOutOfBounds := by
  decide

/-- Claim C10 as amended: approving a pending multisig transaction stays
within the bounds of the stored signers bitset whenever the current owner
count does not exceed the bitset length — in particular whenever the owner
set has not been enlarged since the transaction was proposed; only after
set_multi_sig_owners grows the owner set can approve index past the end of
an older transaction bitset. -/
theorem C10_approve_inbounds_when_owners_not_grown (v : Vault) (ms : MultiSig)
    (hms : v.multi_sig = some ms) (txid : Nat) (tx : MultiSigTransaction)
    (htx : v.multi_sig_transactions[txid]? = some tx)
    (hlen : ms.owners.length ≤ tx.signers.length) (approver : Nat) (s : Bool) :
    process_approve_multi_sig_transaction v approver s txid ≠ .error .indexOutOfBounds := by
  unfold process_approve_multi_sig_transaction
  cases s with
  | false => simp
  | true =>
    simp only [Bool.not_true, Bool.false_eq_true, if_false, ite_false, hms, htx]
    split
    · simp
    · split
      · simp
      · have hidx : ms.owners.indexOf approver < tx.signers.length := by
          have hmem : approver ∈ ms.owners := by
            rename_i hc
            simpa using hc
          exact lt_of_lt_of_le (List.indexOf_lt_length.mpr hmem) hlen
        rw [List.getElem?_eq_getElem hidx]
        split
        · rename_i heq
          exact absurd heq (by simp)
        · split <;> simp

/-- Witness for C10: on vB2, whose owner set and transaction 0 bitset both
have length 3, approval never hits the out-of-bounds outcome. -/
theorem C10_approve_inbounds_when_owners_not_grown_witness :
    process_approve_multi_sig_transaction vB2 5 true 0 ≠ .error .indexOutOfBounds :=
  C10_approve_inbounds_when_owners_not_grown vB2
    { owners := [1, 2, 3], threshold := 2, nonce := 0, bump := 0 } (by decide) 0
    { multisig := 77, program_id := 99, accounts := [accA], data := [4, 2],
      signers := [true, false, false], did_execute := false, proposer := 1,
      created_at := 0 }
    (by decide) (by decide) 5 true
